import Mathlib

/-!
Verification of the v0 anti-pattern checker (`check_patterns.py`) and the
v0 pattern scaffolder (`scaffold_pattern.py`).

The checker is embedded shallowly: the mutable `self.issues` list becomes
explicit state passing (each method takes the current issue list and returns
the new one), a filesystem is a record of the three `rglob` result lists,
and the external `re.search` primitive is a parameter
`research : String → String → Bool` taking the pattern text and the line and
answering whether the search finds a match. Python's `KeyError` on a dict
subscript is modelled by `Option`.

File reads are modelled twice. The coarse model (`FileEntry`,
`_check_file`, `check_project`) uses an `Option String`: `none` stands for
a read that raised one of the two exceptions line 39 actually catches,
`UnicodeDecodeError` or `FileNotFoundError`. The refined model
(`ReadError`, `FileEntryR`, `_check_file_r`, `check_project_r`) keeps the
exception identity: the `except` clause of line 39 does NOT catch
`PermissionError` (a sibling of `FileNotFoundError` under `OSError`), so a
permission error propagates out of `_check_file` and aborts the whole
scan, which the refined model renders with `Except`.
-/

namespace V0

/-- A detection rule record: `{'pattern': ..., 'message': ..., 'suggestion': ..., 'severity': ...}`. -/
structure Rule where
  pattern : String
  message : String
  suggestion : String
  severity : String
deriving Repr, DecidableEq

/-- An issue record appended by `_apply_patterns`. -/
structure Issue where
  file : String
  line : Nat
  category : String
  severity : String
  message : String
  suggestion : String
  code : String
deriving Repr, DecidableEq

/-- A candidate file in the coarse model: `path` models `str(file_path)`,
`rel` models `str(file_path.relative_to(self.project_path))`, and `content`
is the result of reading it — `none` only for a read that raised one of the
two exceptions `_check_file` catches (`UnicodeDecodeError`,
`FileNotFoundError`); an uncaught exception is outside this model and is
handled by the refined `FileEntryR` model. -/
structure FileEntry where
  path : String
  rel : String
  content : Option String
deriving Repr, DecidableEq

/-- The filesystem as seen by `check_project`: the results of the three
`rglob` calls, in traversal order. -/
structure FS where
  vue_files : List FileEntry
  js_files : List FileEntry
  ts_files : List FileEntry
deriving Repr

/-- Split a character list at a separator character; models Python's
`str.split(sep)`: the result always has one more piece than there are
separators, so `''` splits to `['']`. `acc` holds the current piece reversed. -/
def splitSepAux (sep : Char) : List Char → List Char → List String
  | acc, [] => [String.mk acc.reverse]
  | acc, c :: rest =>
      if c == sep then String.mk acc.reverse :: splitSepAux sep [] rest
      else splitSepAux sep (c :: acc) rest

/-- `content.split('\n')` as a structurally recursive function. -/
def splitLines (s : String) : List String :=
  splitSepAux '\n' [] s.data

/-- `line.strip()`: drop leading and trailing whitespace. -/
def pyStrip (s : String) : String :=
  String.mk (((s.data.dropWhile Char.isWhitespace).reverse.dropWhile Char.isWhitespace).reverse)

/-- Character-list prefix test, used to model Python's `in` on strings. -/
def isPrefixL : List Char → List Char → Bool
  | [], _ => true
  | _ :: _, [] => false
  | a :: as, b :: bs => a == b && isPrefixL as bs

/-- Character-list substring test. -/
def containsL (pat : List Char) : List Char → Bool
  | [] => isPrefixL pat []
  | c :: rest => isPrefixL pat (c :: rest) || containsL pat rest

/-- `strContains s pat` models Python's `pat in s` on strings. -/
def strContains (s pat : String) : Bool :=
  containsL pat.data s.data

/-- The `patterns` list of `_check_selection_patterns`. -/
def selection_patterns : List Rule :=
  [ { pattern := "ref<.*\\[\\]>\\(\\[\\]\\)",
      message := "Manual array selection - consider createSelection()",
      suggestion := "Replace with createSelection(\x7b multiple: true \x7d)",
      severity := "warning" },
    { pattern := "\\.includes\\(.*\\)\\s*\\?\\s*.*\\.filter\\(",
      message := "Manual selection filtering - v0 handles this automatically",
      suggestion := "Use selection.isSelected() and selection composables",
      severity := "info" },
    { pattern := "splice\\(\\w+,\\s*1\\)",
      message := "Manual array manipulation for selection",
      suggestion := "Use selection.toggle() or selection.remove()",
      severity := "warning" },
    { pattern := "selected\\.value\\s*=\\s*selected\\.value\\s*===\\s*.*\\s*\\?\\s*null",
      message := "Manual single selection toggle logic",
      suggestion := "Use createSingle() composable",
      severity := "warning" } ]

/-- The `patterns` list of `_check_context_patterns`. -/
def context_patterns : List Rule :=
  [ { pattern := "inject\\([\\\x27\"][^\"\\\x27]*[\\\x27\\\"]\\)",
      message := "Unsafe provide/inject - no type safety",
      suggestion := "Use createContext() for type-safe DI",
      severity := "error" },
    { pattern := "provide\\([\\\x27\"][^\"\\\x27]*[\\\x27\"],",
      message := "Manual provide - consider createContext()",
      suggestion := "Use createContext() for better error handling",
      severity := "warning" } ]

/-- The `patterns` list of `_check_browser_patterns`. -/
def browser_patterns : List Rule :=
  [ { pattern := "typeof window !== [\\\x27\"]undefined[\\\x27\"]",
      message := "Manual SSR check - not tree-shakeable",
      suggestion := "Use IN_BROWSER constant from @vuetify/v0/constants",
      severity := "info" },
    { pattern := "new ResizeObserver",
      message := "Manual ResizeObserver - no auto-cleanup",
      suggestion := "Use useResizeObserver() composable",
      severity := "warning" },
    { pattern := "addEventListener\\([\\\x27\"]resize[\\\x27\"]",
      message := "Manual resize listener - memory leak potential",
      suggestion := "Use useEventListener() for auto-cleanup",
      severity := "warning" },
    { pattern := "new IntersectionObserver",
      message := "Manual IntersectionObserver setup",
      suggestion := "Use useIntersectionObserver() composable",
      severity := "info" } ]

/-- The `patterns` list of `_check_form_patterns`. -/
def form_patterns : List Rule :=
  [ { pattern := "ref<string>\\(\\\x27\\\x27\\).*Error.*ref<string>",
      message := "Manual form field validation state",
      suggestion := "Use createForm() for integrated validation",
      severity := "info" },
    { pattern := "if\\s*\\(\\s*!\\w+\\.value\\s*\\)\\s*\x7b\\s*\\w+Error",
      message := "Manual validation logic",
      suggestion := "Use form.register() with rules array",
      severity := "warning" } ]

/-- The inner loop of `_apply_patterns` for one rule:
`for line_num, line in enumerate(lines, 1): if re.search(pattern, line): self.issues.append(...)`.
`n` is the 1-based number of the first line of `lines`. -/
def scanLines (research : String → String → Bool) (file category : String) (r : Rule) :
    Nat → List String → List Issue
  | _, [] => []
  | n, line :: rest =>
      (if research r.pattern line then
        [{ file := file, line := n, category := category, severity := r.severity,
           message := r.message, suggestion := r.suggestion, code := pyStrip line }]
      else []) ++ scanLines research file category r (n + 1) rest

/-- `_apply_patterns`: split the content into lines and run every rule of the
category over them in declaration order, appending matches to `issues`. -/
def _apply_patterns (research : String → String → Bool) (file content : String)
    (patterns : List Rule) (category : String) (issues : List Issue) : List Issue :=
  let lines := splitLines content
  patterns.foldl (fun acc p => acc ++ scanLines research file category p 1 lines) issues

/-- `_check_selection_patterns`. -/
def _check_selection_patterns (research : String → String → Bool) (file content : String)
    (issues : List Issue) : List Issue :=
  _apply_patterns research file content selection_patterns "selection" issues

/-- `_check_context_patterns`. -/
def _check_context_patterns (research : String → String → Bool) (file content : String)
    (issues : List Issue) : List Issue :=
  _apply_patterns research file content context_patterns "context" issues

/-- `_check_browser_patterns`. -/
def _check_browser_patterns (research : String → String → Bool) (file content : String)
    (issues : List Issue) : List Issue :=
  _apply_patterns research file content browser_patterns "browser" issues

/-- `_check_form_patterns`. -/
def _check_form_patterns (research : String → String → Bool) (file content : String)
    (issues : List Issue) : List Issue :=
  _apply_patterns research file content form_patterns "forms" issues

/-- `_check_file`, coarse model: on a read failure that line 39 catches
(`UnicodeDecodeError`, `FileNotFoundError`) return with `issues` unchanged;
on success run the four category checkers in source order. The uncaught
`PermissionError` path is modelled by `_check_file_r` below. -/
def _check_file (research : String → String → Bool) (f : FileEntry)
    (issues : List Issue) : List Issue :=
  match f.content with
  | none => issues
  | some content =>
      _check_form_patterns research f.rel content
        (_check_browser_patterns research f.rel content
          (_check_context_patterns research f.rel content
            (_check_selection_patterns research f.rel content issues)))

/-- `all_files = vue_files + js_files + ts_files` (line 25 of the source). -/
def all_files (fs : FS) : List FileEntry :=
  fs.vue_files ++ fs.js_files ++ fs.ts_files

/-- `check_project`: walk `all_files`, skip any file whose path contains
`node_modules`, check the rest, and return the accumulated issue list. -/
def check_project (research : String → String → Bool) (fs : FS)
    (issues : List Issue) : List Issue :=
  (all_files fs).foldl
    (fun acc f => if strContains f.path "node_modules" then acc else _check_file research f acc)
    issues

/-- The `severity_levels` dict of line 182: `\x7b"error": 3, "warning": 2, "info": 1\x7d`. -/
def severity_levels : List (String × Nat) :=
  [("error", 3), ("warning", 2), ("info", 1)]

/-- The list comprehension of line 184:
`[i for i in issues if severity_levels[i['severity']] >= min_level]`.
A dict subscript on an unknown severity raises `KeyError`, modelled as `none`. -/
def filterComp (min_level : Nat) : List Issue → Option (List Issue)
  | [] => some []
  | i :: rest => do
      let l ← List.lookup i.severity severity_levels
      let r ← filterComp min_level rest
      pure (if min_level ≤ l then i :: r else r)

/-- Lines 181-184 of `main`: when a `--severity` argument is given, look up
its rank and filter; otherwise leave the issue list untouched. -/
def filter_by_severity (severity : Option String) (issues : List Issue) :
    Option (List Issue) :=
  match severity with
  | none => some issues
  | some s => do
      let min_level ← List.lookup s severity_levels
      filterComp min_level issues

/-- The `severity_icon` dict of `print_text_report` (lines 212-216). -/
def severity_icons : List (String × String) :=
  [("error", "❌"), ("warning", "⚠️"), ("info", "ℹ️")]

/-- Derived form of a single file's contribution: the four categories in the
order `_check_file` runs them, each category's rules in declaration order. -/
def categories : List (String × List Rule) :=
  [("selection", selection_patterns), ("context", context_patterns),
   ("browser", browser_patterns), ("forms", form_patterns)]

/-- Derived: the issues one readable file contributes, flattened in
(category order, rule order, line order); an unreadable file contributes
nothing. -/
def fileIssues (research : String → String → Bool) (f : FileEntry) : List Issue :=
  match f.content with
  | none => []
  | some content =>
      categories.flatMap (fun c =>
        c.2.flatMap (fun r => scanLines research f.rel c.1 r 1 (splitLines content)))

/-- The exceptions a file read can raise in the refined model:
`UnicodeDecodeError` (binary content), `FileNotFoundError` (file vanished
between `rglob` and `open`), and `PermissionError` (unreadable file). -/
inductive ReadError where
  | unicodeDecodeError
  | fileNotFoundError
  | permissionError
deriving Repr, DecidableEq

/-- The `except (UnicodeDecodeError, FileNotFoundError)` clause of line 39:
which read exceptions `_check_file` catches. `PermissionError` is not a
subclass of either listed type, so it is not caught. -/
def caught_by_check_file : ReadError → Bool
  | ReadError.unicodeDecodeError => true
  | ReadError.fileNotFoundError => true
  | ReadError.permissionError => false

/-- A candidate file in the refined model: `read` is the exact outcome of
`open(file_path).read()` — the content, or the exception raised. -/
structure FileEntryR where
  path : String
  rel : String
  read : Except ReadError String
deriving Repr

/-- The refined filesystem: the three `rglob` result lists. -/
structure FSR where
  vue_files : List FileEntryR
  js_files : List FileEntryR
  ts_files : List FileEntryR
deriving Repr

/-- `_check_file`, refined model: a caught exception returns with `issues`
unchanged, an uncaught one propagates (`Except.error`), and a successful
read runs the four category checkers in source order. -/
def _check_file_r (research : String → String → Bool) (f : FileEntryR)
    (issues : List Issue) : Except ReadError (List Issue) :=
  match f.read with
  | Except.error e =>
      if caught_by_check_file e then Except.ok issues else Except.error e
  | Except.ok content =>
      Except.ok
        (_check_form_patterns research f.rel content
          (_check_browser_patterns research f.rel content
            (_check_context_patterns research f.rel content
              (_check_selection_patterns research f.rel content issues))))

/-- `all_files` in the refined model (line 25). -/
def all_files_r (fs : FSR) : List FileEntryR :=
  fs.vue_files ++ fs.js_files ++ fs.ts_files

/-- The `for file_path in all_files` loop of `check_project` in the refined
model: an uncaught exception raised by `_check_file` aborts the loop and
propagates out of `check_project`. -/
def check_project_go (research : String → String → Bool) :
    List FileEntryR → List Issue → Except ReadError (List Issue)
  | [], issues => Except.ok issues
  | f :: rest, issues =>
      if strContains f.path "node_modules" then check_project_go research rest issues
      else
        match _check_file_r research f issues with
        | Except.error e => Except.error e
        | Except.ok issues2 => check_project_go research rest issues2

/-- `check_project`, refined model. -/
def check_project_r (research : String → String → Bool) (fs : FSR)
    (issues : List Issue) : Except ReadError (List Issue) :=
  check_project_go research (all_files_r fs) issues

/-- Forget the exception identity: a refined file entry seen by the coarse
model (`Except.error` collapses to `none`). -/
def toFileEntry (f : FileEntryR) : FileEntry :=
  { path := f.path, rel := f.rel,
    content := match f.read with
      | Except.ok c => some c
      | Except.error _ => none }

end V0

namespace Scaffold

/-- A filesystem side effect of `scaffold`, in chronological order:
`output_file.parent.mkdir(parents=True, exist_ok=True)`, the truncating
`open(output_file, 'w')`, and `f.write(code)`. -/
inductive FileOp where
  | mkdir_parents (dir : String)
  | open_trunc (path : String)
  | write_all (path : String) (content : String)
deriving Repr, DecidableEq

/-- `Path(output_path).parent`, modelled by dropping the last `/`-segment. -/
def parentDir (p : String) : String :=
  String.intercalate "/" (V0.splitSepAux '/' [] p.data).dropLast

/-- The `self.patterns` dict built in `PatternScaffolder.__init__`: the five
fixed keys mapped to the generator methods. A generator's template body is
out of scope here, so each generator is a parameter returning the rendered
body, `none` modelling Python's implicit `None` return. -/
def scaffolder_patterns {α : Type} (gsel gform gctx greg gcomp : α → Option String) :
    List (String × (α → Option String)) :=
  [("selection", gsel), ("form", gform), ("context", gctx),
   ("registry", greg), ("component", gcomp)]

/-- `PatternScaffolder.scaffold`: reject an unknown pattern type before any
file operation; otherwise render the body fully in memory, then create the
parent directory, open the destination (truncating it) and write the body.
The result is the chronological file-operation trace together with the error
raised, if any (`f.write(None)` raises `TypeError` after the open). -/
def scaffold {α : Type} (patterns : List (String × (α → Option String)))
    (pattern_type output_path : String) (kwargs : α) :
    List FileOp × Option String :=
  match List.lookup pattern_type patterns with
  | none => ([], some ("Unknown pattern type: " ++ pattern_type))
  | some generator =>
      match generator kwargs with
      | some body =>
          ([FileOp.mkdir_parents (parentDir output_path),
            FileOp.open_trunc output_path,
            FileOp.write_all output_path body], none)
      | none =>
          ([FileOp.mkdir_parents (parentDir output_path),
            FileOp.open_trunc output_path], some "TypeError")

/-- `_generate_selection`'s dispatch on `selection_type`: three template
branches (the template bodies are parameters) and Python's implicit `None`
return when the subtype is none of `single`, `multi`, `group`. -/
def _generate_selection (single_template multi_template group_template : String → String)
    (selection_type name : String) : Option String :=
  if selection_type == "single" then some (single_template name)
  else if selection_type == "multi" then some (multi_template name)
  else if selection_type == "group" then some (group_template name)
  else none

end Scaffold

/-! ### Structural lemmas about the scanner -/

namespace V0

/-- Helper: a list of issues none of which sits on line `m` counts zero
issues on line `m`. -/
theorem countP_line_eq_zero {m : Nat} {js : List Issue} (h : ∀ j ∈ js, j.line ≠ m) :
    js.countP (fun i => i.line == m) = 0 := by
  rw [List.countP_eq_zero]
  intro a ha
  simpa using h a ha

/-- Every issue produced by `scanLines` records the file, the category, the
rule's metadata, and a line number at least `n` that indexes a line of `ls`
on which the search succeeded, whose stripped text is the `code` field. -/
theorem mem_scanLines {research : String → String → Bool} {f c : String} {r : Rule} :
    ∀ {n : Nat} {ls : List String} {i : Issue}, i ∈ scanLines research f c r n ls →
      n ≤ i.line ∧ i.file = f ∧ i.category = c ∧ i.severity = r.severity ∧
      i.message = r.message ∧ i.suggestion = r.suggestion ∧
      i.line - n < ls.length ∧
      i.code = pyStrip (ls.getD (i.line - n) "") ∧
      research r.pattern (ls.getD (i.line - n) "") = true := by
  intro n ls
  induction ls generalizing n with
  | nil => intro i hi; simp [scanLines] at hi
  | cons l rest ih =>
      intro i hi
      simp only [scanLines, List.mem_append] at hi
      rcases hi with hi | hi
      · by_cases hm : research r.pattern l = true
        · simp only [hm, if_true, List.mem_singleton] at hi
          subst hi
          refine ⟨Nat.le_refl n, rfl, rfl, rfl, rfl, rfl, ?_, ?_, ?_⟩ <;>
            simp [Nat.sub_self, hm]
        · simp [hm] at hi
      · obtain ⟨hn, hf, hc, hs, hmsg, hsug, hlt, hcode, hres⟩ := ih hi
        have hn' : n ≤ i.line := Nat.le_of_succ_le hn
        have hidx : i.line - n = (i.line - (n + 1)) + 1 := by omega
        refine ⟨hn', hf, hc, hs, hmsg, hsug, ?_, ?_, ?_⟩ <;>
          simp only [hidx, List.getD_cons_succ, List.length_cons] <;>
          first
            | omega
            | assumption

/-- The line numbers of the issues one rule produces are strictly
increasing along the scan. -/
theorem pairwise_scanLines {research : String → String → Bool} {f c : String} {r : Rule} :
    ∀ (n : Nat) (ls : List String),
      (scanLines research f c r n ls).Pairwise (fun a b => a.line < b.line) := by
  intro n ls
  induction ls generalizing n with
  | nil => simp [scanLines]
  | cons l rest ih =>
      simp only [scanLines]
      refine List.pairwise_append.2 ⟨?_, ih (n + 1), ?_⟩
      · split <;> simp
      · intro a ha b hb
        have hb1 : n + 1 ≤ b.line := (mem_scanLines hb).1
        have ha1 : a.line = n := by
          by_cases hm : research r.pattern l = true
          · simp only [hm, if_true, List.mem_singleton] at ha
            subst ha; rfl
          · simp [hm] at ha
        omega

/-- The number of issues one rule contributes at the line numbered `n + k`
is one when the search succeeds on line `k` (0-based) and zero otherwise. -/
theorem countP_scanLines {research : String → String → Bool} {f c : String} {r : Rule} :
    ∀ (n : Nat) (ls : List String) (k : Nat), k < ls.length →
      (scanLines research f c r n ls).countP (fun i => i.line == n + k) =
        if research r.pattern (ls.getD k "") = true then 1 else 0 := by
  intro n ls
  induction ls generalizing n with
  | nil => intro k hk; simp at hk
  | cons l rest ih =>
      intro k hk
      simp only [scanLines, List.countP_append]
      cases k with
      | zero =>
          have htail : (scanLines research f c r (n + 1) rest).countP
              (fun i => i.line == n + 0) = 0 := by
            refine countP_line_eq_zero ?_
            intro j hj
            have := (mem_scanLines hj).1
            omega
          rw [htail]
          by_cases hm : research r.pattern l = true <;>
            simp [hm, List.countP_cons]
      | succ k =>
          have hk2 : k < rest.length := by
            simp only [List.length_cons] at hk; omega
          have hrw : n + (k + 1) = (n + 1) + k := by omega
          have hne : (n == n + 1 + k) = false := by
            simp only [beq_eq_false_iff_ne, ne_eq]
            omega
          by_cases hm : research r.pattern l = true
          · simp [hm, List.countP_cons, hrw, hne, List.getD_cons_succ,
              ih (n + 1) k hk2]
          · simp [hm, hrw, List.getD_cons_succ, ih (n + 1) k hk2]

end V0

namespace V0

/-- Folding an appending step over a list, starting from `init`, is `init`
followed by the concatenation of all contributions. -/
theorem foldl_append_flatMap {α : Type} {β : Type} (xs : List α) (g : α → List β) :
    ∀ init : List β, xs.foldl (fun acc x => acc ++ g x) init = init ++ xs.flatMap g := by
  induction xs with
  | nil => intro init; simp
  | cons x xs ih => intro init; simp [ih, List.append_assoc]

/-- `_apply_patterns` appends, in rule-declaration order, each rule's
line-ordered matches. -/
theorem _apply_patterns_eq (research : String → String → Bool) (file content : String)
    (pats : List Rule) (cat : String) (issues : List Issue) :
    _apply_patterns research file content pats cat issues =
      issues ++ pats.flatMap (fun p => scanLines research file cat p 1 (splitLines content)) := by
  simp [_apply_patterns, foldl_append_flatMap]

/-- `_check_file` appends exactly the file's contribution `fileIssues`. -/
theorem _check_file_eq (research : String → String → Bool) (f : FileEntry)
    (issues : List Issue) :
    _check_file research f issues = issues ++ fileIssues research f := by
  cases h : f.content with
  | none => simp [_check_file, fileIssues, h]
  | some content =>
      simp [_check_file, fileIssues, h, categories,
        _check_selection_patterns, _check_context_patterns,
        _check_browser_patterns, _check_form_patterns,
        _apply_patterns_eq, List.append_assoc]

/-- `check_project` appends the contributions of the non-excluded files of
`all_files`, in discovery order. -/
theorem check_project_eq (research : String → String → Bool) (fs : FS)
    (issues : List Issue) :
    check_project research fs issues =
      issues ++ ((all_files fs).filter
        (fun f => !(strContains f.path "node_modules"))).flatMap (fileIssues research) := by
  unfold check_project
  generalize all_files fs = files
  induction files generalizing issues with
  | nil => simp
  | cons f fl ih =>
      by_cases hx : strContains f.path "node_modules" = true
      · simp only [List.foldl_cons, hx, if_true, List.filter_cons, Bool.not_true]
        rw [ih]
        simp
      · simp only [List.foldl_cons]
        rw [if_neg (by simp [hx]), ih, _check_file_eq]
        simp only [List.filter_cons]
        rw [show (!(strContains f.path "node_modules")) = true by simp [hx]]
        simp [List.append_assoc]

/-- Every issue contributed by one file carries that file's relative path,
and a rule and category drawn from the catalog. -/
theorem mem_fileIssues {research : String → String → Bool} {f : FileEntry} {i : Issue}
    (hi : i ∈ fileIssues research f) :
    i.file = f.rel ∧ ∃ p ∈ categories, ∃ r ∈ p.2, i.category = p.1 ∧ i.severity = r.severity := by
  unfold fileIssues at hi
  cases h : f.content with
  | none => rw [h] at hi; simp at hi
  | some content =>
      rw [h] at hi
      simp only [List.mem_flatMap] at hi
      obtain ⟨p, hp, r, hr, hmem⟩ := hi
      obtain ⟨-, hf, hc, hs, -, -, -, -, -⟩ := mem_scanLines hmem
      exact ⟨hf, p, hp, r, hr, hc, hs⟩

/-- Every issue in a `check_project` result beyond the initial state comes
from a non-excluded file of `all_files`. -/
theorem mem_check_project {research : String → String → Bool} {fs : FS} {i : Issue}
    (hi : i ∈ check_project research fs []) :
    ∃ f ∈ all_files fs, strContains f.path "node_modules" = false ∧
      i ∈ fileIssues research f := by
  rw [check_project_eq] at hi
  simp only [List.nil_append, List.mem_flatMap, List.mem_filter] at hi
  obtain ⟨f, ⟨hmem, hkeep⟩, hfi⟩ := hi
  exact ⟨f, hmem, by simpa using hkeep, hfi⟩

end V0

namespace V0

/-- When every severity in `issues` is a known key, the comprehension of
line 184 succeeds and returns the rank-threshold filter of the input. -/
theorem filterComp_eq {min_level : Nat} : ∀ {issues : List Issue},
    (∀ i ∈ issues, (List.lookup i.severity severity_levels).isSome = true) →
    filterComp min_level issues =
      some (issues.filter
        (fun i => min_level ≤ (List.lookup i.severity severity_levels).getD 0)) := by
  intro issues
  induction issues with
  | nil => intro _; simp [filterComp]
  | cons i rest ih =>
      intro h
      have hi := h i (List.mem_cons_self i rest)
      obtain ⟨lv, hl⟩ := Option.isSome_iff_exists.1 hi
      have hrest := ih (fun j hj => h j (List.mem_cons_of_mem i hj))
      by_cases hc : min_level ≤ lv
      · simp [filterComp, hl, hrest, List.filter_cons, hc]
      · simp [filterComp, hl, hrest, List.filter_cons, hc]

/-- The comprehension of line 184 is antitone in the threshold: raising the
minimum level can only drop further issues, keeping relative order. -/
theorem filterComp_mono {m m' : Nat} (hmm : m' ≤ m) :
    ∀ (issues : List Issue) {l l' : List Issue},
      filterComp m issues = some l → filterComp m' issues = some l' → l.Sublist l' := by
  intro issues
  induction issues with
  | nil =>
      intro l l' h1 h2
      simp [filterComp] at h1 h2
      subst h1; subst h2
      exact List.Sublist.refl []
  | cons i rest ih =>
      intro l l' h1 h2
      simp only [filterComp] at h1 h2
      cases hl : List.lookup i.severity severity_levels with
      | none => rw [hl] at h1; simp at h1
      | some lv =>
          rw [hl] at h1 h2
          cases hr1 : filterComp m rest with
          | none => rw [hr1] at h1; simp at h1
          | some r1 =>
              cases hr2 : filterComp m' rest with
              | none => rw [hr2] at h2; simp at h2
              | some r2 =>
                  rw [hr1] at h1
                  rw [hr2] at h2
                  simp only [Option.bind_eq_bind, Option.some_bind, Option.pure_def,
                    Option.some.injEq] at h1 h2
                  have hsub := ih hr1 hr2
                  by_cases hc1 : m ≤ lv
                  · have hc2 : m' ≤ lv := le_trans hmm hc1
                    rw [if_pos hc1] at h1
                    rw [if_pos hc2] at h2
                    subst h1; subst h2
                    exact hsub.cons₂ i
                  · rw [if_neg hc1] at h1
                    subst h1
                    by_cases hc2 : m' ≤ lv
                    · rw [if_pos hc2] at h2
                      subst h2
                      exact hsub.cons i
                    · rw [if_neg hc2] at h2
                      subst h2
                      exact hsub

/-- Every rule of every category catalog declares one of the three known
severity strings. -/
theorem catalog_severities :
    ∀ p ∈ categories, ∀ r ∈ p.2, r.severity ∈ ["info", "warning", "error"] := by
  decide

/-- The rank lookup of line 182 succeeds on each of the three severities. -/
theorem lookup_levels_total {s : String} (h : s ∈ ["info", "warning", "error"]) :
    (List.lookup s severity_levels).isSome = true := by
  simp only [List.mem_cons, List.mem_singleton] at h
  rcases h with rfl | rfl | h
  · decide
  · decide
  · simp at h; subst h; decide

/-- The icon lookup of lines 212-216 succeeds on each of the three
severities. -/
theorem lookup_icons_total {s : String} (h : s ∈ ["info", "warning", "error"]) :
    (List.lookup s severity_icons).isSome = true := by
  simp only [List.mem_cons, List.mem_singleton] at h
  rcases h with rfl | rfl | h
  · decide
  · decide
  · simp at h; subst h; decide

end V0

/-! ### The claims -/

namespace V0

/-- Helper: a file on which `_check_file` returns the issue list unchanged
can be dropped from the scanned file list without changing the result. -/
theorem check_project_go_skip (research : String → String → Bool) (f : FileEntryR)
    (hskip : ∀ issues, _check_file_r research f issues = Except.ok issues) :
    ∀ (pre rest : List FileEntryR) (issues : List Issue),
      check_project_go research (pre ++ f :: rest) issues =
        check_project_go research (pre ++ rest) issues := by
  intro pre
  induction pre with
  | nil =>
      intro rest issues
      simp only [List.nil_append, check_project_go]
      by_cases hx : strContains f.path "node_modules" = true
      · simp [hx]
      · simp [hx, hskip issues]
  | cons g pre ih =>
      intro rest issues
      simp only [List.cons_append, check_project_go]
      by_cases hx : strContains g.path "node_modules" = true
      · simp [hx, ih]
      · cases hg : _check_file_r research g issues with
        | error e => simp [hx, hg]
        | ok issues2 => simp [hx, hg, ih]

/-- Helper: on a file whose read either succeeds or raises only a caught
exception, the refined `_check_file` agrees with the coarse one. -/
theorem _check_file_r_eq_coarse (research : String → String → Bool) (f : FileEntryR)
    (h : ∀ e, f.read = Except.error e → caught_by_check_file e = true)
    (issues : List Issue) :
    _check_file_r research f issues =
      Except.ok (_check_file research (toFileEntry f) issues) := by
  cases hr : f.read with
  | ok c => simp [_check_file_r, _check_file, toFileEntry, hr]
  | error e =>
      have hc := h e hr
      simp [_check_file_r, _check_file, toFileEntry, hr, hc]

/-- C1 counterexample: the claim as stated is false — a file whose read
raises `PermissionError` does not get silently skipped; the scan raises and
the remaining file is never reached. -/
theorem c1_counterexample :
    check_project_r (fun _ _ => true)
      ⟨[⟨"p/a.vue", "a.vue", Except.error ReadError.permissionError⟩,
        ⟨"p/b.vue", "b.vue", Except.ok "x"⟩], [], []⟩ [] =
      Except.error ReadError.permissionError := by
  rfl

/-- C1 amended: a read failure with one of the exceptions line 39 catches
(`UnicodeDecodeError`, `FileNotFoundError`) is silently skipped —
`_check_file` returns without appending any issue and the scan continues
with the remaining files; a `PermissionError` is not caught and propagates
out of `_check_file`, aborting the scan. -/
theorem c1_caught_skipped_uncaught_aborts (research : String → String → Bool) :
    (∀ (f : FileEntryR) (e : ReadError), f.read = Except.error e →
      caught_by_check_file e = true →
      (∀ issues : List Issue, _check_file_r research f issues = Except.ok issues) ∧
      (∀ (pre post js ts : List FileEntryR) (issues : List Issue),
        check_project_r research ⟨pre ++ f :: post, js, ts⟩ issues =
          check_project_r research ⟨pre ++ post, js, ts⟩ issues)) ∧
    (∀ f : FileEntryR, f.read = Except.error ReadError.permissionError →
      ∀ issues : List Issue,
        _check_file_r research f issues = Except.error ReadError.permissionError) := by
  constructor
  · intro f e hf hc
    have hskip : ∀ issues : List Issue,
        _check_file_r research f issues = Except.ok issues := by
      intro issues
      simp [_check_file_r, hf, hc]
    refine ⟨hskip, ?_⟩
    intro pre post js ts issues
    simp only [check_project_r, all_files_r]
    rw [show (pre ++ f :: post) ++ js ++ ts = pre ++ f :: (post ++ js ++ ts) from by simp,
      show (pre ++ post) ++ js ++ ts = pre ++ (post ++ js ++ ts) from by simp]
    exact check_project_go_skip research f hskip pre (post ++ js ++ ts) issues
  · intro f hf issues
    simp [_check_file_r, hf, caught_by_check_file]

/-- C1 witness: a concrete decode failure is skipped, leaving the empty
issue list unchanged. -/
theorem c1_witness :
    _check_file_r (fun _ _ => true)
      ⟨"p/a.vue", "a.vue", Except.error ReadError.unicodeDecodeError⟩ [] =
      Except.ok [] :=
  ((c1_caught_skipped_uncaught_aborts (fun _ _ => true)).1
    ⟨"p/a.vue", "a.vue", Except.error ReadError.unicodeDecodeError⟩
    ReadError.unicodeDecodeError rfl rfl).1 []

/-- C3: the scan result lists, in order, each non-excluded file's
contribution in discovery order; a file's contribution runs the categories
in declaration order (selection, context, browser, forms) and each
category's rules in declaration order; and within one rule the line numbers
are strictly increasing. -/
theorem c3_issue_order (research : String → String → Bool) (fs : FS) :
    check_project research fs [] =
      ((all_files fs).filter
        (fun f => !(strContains f.path "node_modules"))).flatMap (fileIssues research) ∧
    ∀ (f c : String) (r : Rule) (n : Nat) (ls : List String),
      (scanLines research f c r n ls).Pairwise (fun a b => a.line < b.line) := by
  exact ⟨by simpa using check_project_eq research fs [],
    fun f c r n ls => pairwise_scanLines n ls⟩

/-- C4: for one rule, a matching line produces exactly one issue at its
1-based number and a non-matching line none, the line numbers are strictly
increasing (so N identical matching lines give N issues in increasing
order), and each issue's `code` is the matched line stripped. -/
theorem c4_one_issue_per_matching_line (research : String → String → Bool)
    (f c : String) (r : Rule) (ls : List String) :
    (scanLines research f c r 1 ls).Pairwise (fun a b => a.line < b.line) ∧
    (∀ k, k < ls.length →
      (scanLines research f c r 1 ls).countP (fun i => i.line == 1 + k) =
        if research r.pattern (ls.getD k "") = true then 1 else 0) ∧
    (∀ i ∈ scanLines research f c r 1 ls, i.code = pyStrip (ls.getD (i.line - 1) "")) := by
  refine ⟨pairwise_scanLines 1 ls, fun k hk => countP_scanLines 1 ls k hk, ?_⟩
  intro i hi
  exact (mem_scanLines hi).2.2.2.2.2.2.2.1

/-- C4 witness: with a search that matches everything, line 1 of a
two-line file yields exactly one issue for the rule. -/
theorem c4_witness :
    (scanLines (fun _ _ => true) "f" "c" ⟨"p", "m", "s", "warning"⟩ 1 ["a", "b"]).countP
      (fun i => i.line == 1 + 0) = 1 := by
  have h := (c4_one_issue_per_matching_line (fun _ _ => true) "f" "c"
    ⟨"p", "m", "s", "warning"⟩ ["a", "b"]).2.1 0 (by decide)
  simpa using h

/-- C7: when every file whose relative path is `rel` lies under
`node_modules`, no issue of the scan ever references `rel`, no matter how
many patterns such a file's content would match. -/
theorem c7_node_modules_never_referenced (research : String → String → Bool)
    (fs : FS) (rel : String)
    (h : ∀ f ∈ all_files fs, f.rel = rel → strContains f.path "node_modules" = true) :
    ∀ i ∈ check_project research fs [], i.file ≠ rel := by
  intro i hi
  obtain ⟨f, hmem, hkeep, hfi⟩ := mem_check_project hi
  have hfile := (mem_fileIssues hfi).1
  intro hcontra
  have hexc := h f hmem (by rw [← hfile, hcontra])
  rw [hexc] at hkeep
  cases hkeep

/-- C7 witness: a project with one excluded and one regular file (and a
search matching everything) produces issues, none of which reference the
excluded file. -/
theorem c7_witness :
    ((check_project (fun _ _ => true)
        ⟨[⟨"p/node_modules/a.vue", "a.vue", some "x"⟩, ⟨"p/b.vue", "b.vue", some "x"⟩],
          [], []⟩ []).map Issue.file).all (fun f => f != "a.vue") = true := by
  have h := c7_node_modules_never_referenced (fun _ _ => true)
    ⟨[⟨"p/node_modules/a.vue", "a.vue", some "x"⟩, ⟨"p/b.vue", "b.vue", some "x"⟩],
      [], []⟩ "a.vue" (by decide)
  rw [List.all_eq_true]
  intro x hx
  simp only [List.mem_map] at hx
  obtain ⟨i, hi, rfl⟩ := hx
  simpa using h i hi

/-- C8: `check_project` accumulates: running it again with the state left
by a first run returns the first run's issues followed by a repetition of
them, twice the length of a single fresh scan. -/
theorem c8_check_project_not_idempotent (research : String → String → Bool) (fs : FS) :
    check_project research fs (check_project research fs []) =
      check_project research fs [] ++ check_project research fs [] ∧
    (check_project research fs (check_project research fs [])).length =
      2 * (check_project research fs []).length := by
  constructor
  · rw [check_project_eq research fs (check_project research fs []),
      check_project_eq research fs []]
    simp
  · rw [check_project_eq research fs (check_project research fs []),
      check_project_eq research fs []]
    simp [List.length_append]
    omega

/-- C9: file enumeration is grouped by extension: scanning
`vue ++ js ++ ts` equals scanning all `.vue` files, then all `.js` files,
then all `.ts` files. -/
theorem c9_extension_grouped (research : String → String → Bool)
    (vue js ts : List FileEntry) :
    check_project research ⟨vue, js, ts⟩ [] =
      check_project research ⟨vue, [], []⟩ [] ++
        check_project research ⟨[], js, []⟩ [] ++
        check_project research ⟨[], [], ts⟩ [] := by
  simp [check_project_eq, all_files, List.filter_append, List.flatMap_append]

/-- C10: every issue the scan produces carries one of the three catalog
severities, so both the rank lookup of the filter and the icon lookup of
the text renderer succeed on it. -/
theorem c10_severities_total (research : String → String → Bool) (fs : FS) :
    ∀ i ∈ check_project research fs [],
      i.severity ∈ ["info", "warning", "error"] ∧
      (List.lookup i.severity severity_levels).isSome = true ∧
      (List.lookup i.severity severity_icons).isSome = true := by
  intro i hi
  obtain ⟨f, -, -, hfi⟩ := mem_check_project hi
  obtain ⟨-, p, hp, r, hr, -, hs⟩ := mem_fileIssues hfi
  have hmem : r.severity ∈ ["info", "warning", "error"] := catalog_severities p hp r hr
  rw [hs]
  exact ⟨hmem, lookup_levels_total hmem, lookup_icons_total hmem⟩

/-- C10 witness: the first issue of a concrete scan has severity `warning`,
on which both lookups succeed. -/
theorem c10_witness :
    ("warning" : String) ∈ ["info", "warning", "error"] ∧
    (List.lookup "warning" severity_levels).isSome = true ∧
    (List.lookup "warning" severity_icons).isSome = true := by
  have h := c10_severities_total (fun _ _ => true) ⟨[⟨"p/a.vue", "a.vue", some "x"⟩], [], []⟩
    ⟨"a.vue", 1, "selection", "warning",
      "Manual array selection - consider createSelection()",
      "Replace with createSelection(\x7b multiple: true \x7d)", "x"⟩ (by decide)
  simpa using h

end V0

namespace V0

/-- C5: with no threshold the filter is the identity; with a recognized
threshold, on issues whose severities are known keys, it returns exactly
the subsequence of issues of rank at least the threshold's rank, which is
a sublist of the input (relative order preserved). -/
theorem c5_severity_filter (issues : List Issue) (s : String) (min_level : Nat)
    (hs : List.lookup s severity_levels = some min_level)
    (h : ∀ i ∈ issues, (List.lookup i.severity severity_levels).isSome = true) :
    filter_by_severity none issues = some issues ∧
    filter_by_severity (some s) issues =
      some (issues.filter
        (fun i => min_level ≤ (List.lookup i.severity severity_levels).getD 0)) ∧
    (issues.filter
      (fun i => min_level ≤ (List.lookup i.severity severity_levels).getD 0)).Sublist
      issues := by
  refine ⟨rfl, ?_, List.filter_sublist issues⟩
  simp only [filter_by_severity, hs, Option.bind_eq_bind, Option.some_bind]
  exact filterComp_eq h

/-- C5 witness: threshold `warning` on a single `info` issue filters it
out. -/
theorem c5_witness :
    filter_by_severity (some "warning") [⟨"a", 1, "c", "info", "m", "s", "x"⟩] =
      some (([⟨"a", 1, "c", "info", "m", "s", "x"⟩] : List Issue).filter
        (fun i => 2 ≤ (List.lookup i.severity severity_levels).getD 0)) :=
  (c5_severity_filter [⟨"a", 1, "c", "info", "m", "s", "x"⟩] "warning" 2
    (by decide) (by decide)).2.1

/-- C6: severity filtering is monotone in the threshold: whenever both
filters succeed, the `warning` result is a sublist of the `info` result and
the `error` result is a sublist of the `warning` result. -/
theorem c6_filter_monotone (issues : List Issue) :
    (∀ lw li, filter_by_severity (some "warning") issues = some lw →
      filter_by_severity (some "info") issues = some li → lw.Sublist li) ∧
    (∀ le lw, filter_by_severity (some "error") issues = some le →
      filter_by_severity (some "warning") issues = some lw → le.Sublist lw) := by
  have hw : List.lookup "warning" severity_levels = some 2 := by decide
  have hi : List.lookup "info" severity_levels = some 1 := by decide
  have he : List.lookup "error" severity_levels = some 3 := by decide
  constructor
  · intro lw li h1 h2
    simp only [filter_by_severity, hw, hi, Option.bind_eq_bind, Option.some_bind] at h1 h2
    exact filterComp_mono (by omega) issues h1 h2
  · intro le lw h1 h2
    simp only [filter_by_severity, he, hw, Option.bind_eq_bind, Option.some_bind] at h1 h2
    exact filterComp_mono (by omega) issues h1 h2

/-- C6 witness: on a single `info` issue, the `warning` filter result (the
empty list) is a sublist of the `info` filter result (the issue itself). -/
theorem c6_witness :
    List.Sublist ([] : List Issue) [⟨"a", 1, "c", "info", "m", "s", "x"⟩] :=
  (c6_filter_monotone [⟨"a", 1, "c", "info", "m", "s", "x"⟩]).1
    [] [⟨"a", 1, "c", "info", "m", "s", "x"⟩] (by decide) (by decide)

end V0

namespace Scaffold

/-- C2: an unknown pattern type is rejected with no file operation at all
(in particular the destination is never opened); any write that does occur
carries the complete body the looked-up generator rendered in memory, so
partial content is never written; and `_generate_selection` returns no body
for a subtype outside single/multi/group. -/
theorem c2_scaffold_rejects_unknown {α : Type}
    (gsel gform gctx greg gcomp : α → Option String)
    (pattern_type output_path : String) (kwargs : α) :
    (pattern_type ∉ ["selection", "form", "context", "registry", "component"] →
      scaffold (scaffolder_patterns gsel gform gctx greg gcomp)
          pattern_type output_path kwargs =
        ([], some ("Unknown pattern type: " ++ pattern_type))) ∧
    (∀ p body, FileOp.write_all p body ∈
        (scaffold (scaffolder_patterns gsel gform gctx greg gcomp)
          pattern_type output_path kwargs).1 →
      p = output_path ∧
      ∃ g, List.lookup pattern_type
          (scaffolder_patterns gsel gform gctx greg gcomp) = some g ∧
        g kwargs = some body) ∧
    (∀ (t1 t2 t3 : String → String) (st nm : String),
      st ∉ ["single", "multi", "group"] →
      _generate_selection t1 t2 t3 st nm = none) := by
  refine ⟨?_, ?_, ?_⟩
  · intro h
    simp only [List.mem_cons, List.mem_singleton, not_or] at h
    obtain ⟨h1, h2, h3, h4, h5, -⟩ := h
    have e1 : (pattern_type == "selection") = false := by simpa using h1
    have e2 : (pattern_type == "form") = false := by simpa using h2
    have e3 : (pattern_type == "context") = false := by simpa using h3
    have e4 : (pattern_type == "registry") = false := by simpa using h4
    have e5 : (pattern_type == "component") = false := by simpa using h5
    simp [scaffold, scaffolder_patterns, List.lookup, e1, e2, e3, e4, e5]
  · intro p body hmem
    cases hl : List.lookup pattern_type (scaffolder_patterns gsel gform gctx greg gcomp) with
    | none => simp [scaffold, hl] at hmem
    | some g =>
        cases hg : g kwargs with
        | none => simp [scaffold, hl, hg] at hmem
        | some rendered =>
            simp only [scaffold, hl, hg, List.mem_cons, List.mem_singleton] at hmem
            rcases hmem with h | h | h
            · simp at h
            · simp at h
            · rw [FileOp.write_all.injEq] at h
              rcases h with ⟨hp, hb⟩ | h
              · exact ⟨hp, g, rfl, by rw [hg, hb]⟩
              · simp at h
  · intro t1 t2 t3 st nm h
    simp only [List.mem_cons, List.mem_singleton, not_or] at h
    obtain ⟨h1, h2, h3, -⟩ := h
    have e1 : (st == "single") = false := by simpa using h1
    have e2 : (st == "multi") = false := by simpa using h2
    have e3 : (st == "group") = false := by simpa using h3
    simp [_generate_selection, e1, e2, e3]

end Scaffold

namespace Scaffold

/-- C2 witness: requesting the unknown pattern type `bogus` performs no
file operation and reports the rejection. -/
theorem c2_witness :
    scaffold (scaffolder_patterns (fun _ : Unit => some "t") (fun _ => some "t")
        (fun _ => some "t") (fun _ => some "t") (fun _ => some "t"))
      "bogus" "out/x.ts" () =
      ([], some ("Unknown pattern type: " ++ "bogus")) :=
  (c2_scaffold_rejects_unknown (fun _ : Unit => some "t") (fun _ => some "t")
    (fun _ => some "t") (fun _ => some "t") (fun _ => some "t")
    "bogus" "out/x.ts" ()).1 (by decide)

end Scaffold
